import Mathlib

/-!
Shallow embedding of the TransferSim transfer/settlement orchestration core:
alias normalization (src/utils/normalize.ts), the transfer saga
(src/routes/transfers.ts), the settlement saga (src/routes/settlements.ts),
and the settlement webhook retry loop
(src/services/settlementWebhookService.ts), together with theorems settling
the specification claims about them.

JavaScript strings handled by the alias normalizer are modelled as lists of
Unicode code points (List Nat); character-level operations (toLowerCase,
toUpperCase, trim, digit filtering) are modelled on ASCII code points, which
is the range the normalizer actually manipulates.
-/

namespace TransferSim

/-! ## String model for alias normalization (src/utils/normalize.ts) -/

/-- A JavaScript string as a list of code points. -/
abbrev JsStr := List Nat

/-- Whitespace code points removed by String.prototype.trim (ASCII part). -/
def isWsCode (c : Nat) : Bool :=
  c = 32 || c = 9 || c = 10 || c = 11 || c = 12 || c = 13

/-- toLowerCase on a single code point (ASCII range). -/
def lowerCode (c : Nat) : Nat :=
  if 65 ≤ c ∧ c ≤ 90 then c + 32 else c

/-- toUpperCase on a single code point (ASCII range). -/
def upperCode (c : Nat) : Nat :=
  if 97 ≤ c ∧ c ≤ 122 then c - 32 else c

/-- String.prototype.toLowerCase. -/
def jsToLower (s : JsStr) : JsStr := s.map lowerCode

/-- String.prototype.toUpperCase. -/
def jsToUpper (s : JsStr) : JsStr := s.map upperCode

/-- String.prototype.trim: drop leading and trailing whitespace. -/
def jsTrim (s : JsStr) : JsStr :=
  ((s.dropWhile (fun c => isWsCode c)).reverse.dropWhile (fun c => isWsCode c)).reverse

/-- Decimal digit code points, the characters kept by replace(/\D/g, ""). -/
def isDigitCode (c : Nat) : Bool := 48 ≤ c && c ≤ 57

/-- phone.replace(/\D/g, ""): keep only digits. -/
def digitsOf (s : JsStr) : JsStr := s.filter (fun c => isDigitCode c)

/-- Alias types (Prisma enum AliasType). -/
inductive AliasType where
  | EMAIL
  | PHONE
  | USERNAME
  | RANDOM_KEY
deriving DecidableEq, Repr

/-- normalizeEmail: email.toLowerCase().trim(). -/
def normalizeEmail (email : JsStr) : JsStr := jsTrim (jsToLower email)

/-- normalizePhone: strip non-digits, then E.164-ish North-American heuristic.
Code point 43 is the plus sign, 49 is the digit one. -/
def normalizePhone (phone : JsStr) : JsStr :=
  let digits := digitsOf phone
  if digits.length = 11 ∧ digits.head? = some 49 then
    43 :: digits
  else if digits.length = 10 then
    43 :: 49 :: digits
  else
    43 :: digits

/-- normalizeUsername: lowercase, trim, ensure a leading at-sign (code 64). -/
def normalizeUsername (username : JsStr) : JsStr :=
  let normalized := jsTrim (jsToLower username)
  if normalized.head? = some 64 then normalized else 64 :: normalized

/-- normalizeAlias from src/utils/normalize.ts. -/
def normalizeAlias : AliasType → JsStr → JsStr
  | .EMAIL, v => normalizeEmail v
  | .PHONE, v => normalizePhone v
  | .USERNAME, v => normalizeUsername v
  | .RANDOM_KEY, v => jsToUpper v

/-! ### Basic facts about the character operations -/

theorem lowerCode_idem (c : Nat) : lowerCode (lowerCode c) = lowerCode c := by
  simp only [lowerCode]
  split_ifs <;> omega

theorem upperCode_idem (c : Nat) : upperCode (upperCode c) = upperCode c := by
  simp only [upperCode]
  split_ifs <;> omega

theorem isWs_lowerCode (c : Nat) : isWsCode (lowerCode c) = isWsCode c := by
  rw [Bool.eq_iff_iff]
  simp only [isWsCode, lowerCode, Bool.or_eq_true, decide_eq_true_eq]
  split_ifs <;> omega

theorem jsToLower_idem (s : JsStr) : jsToLower (jsToLower s) = jsToLower s := by
  induction s with
  | nil => rfl
  | cons a t ih =>
    simp only [jsToLower, List.map_cons, List.map_map] at ih ⊢
    exact List.cons_eq_cons.mpr ⟨lowerCode_idem a, ih⟩

theorem jsToUpper_idem (s : JsStr) : jsToUpper (jsToUpper s) = jsToUpper s := by
  induction s with
  | nil => rfl
  | cons a t ih =>
    simp only [jsToUpper, List.map_cons, List.map_map] at ih ⊢
    exact List.cons_eq_cons.mpr ⟨upperCode_idem a, ih⟩

theorem jsTrim_jsToLower (s : JsStr) : jsTrim (jsToLower s) = jsToLower (jsTrim s) := by
  have hp : ((fun c => isWsCode c) ∘ lowerCode) = (fun c => isWsCode c) :=
    funext fun c => isWs_lowerCode c
  simp only [jsTrim, jsToLower]
  rw [List.dropWhile_map, hp, ← List.map_reverse, List.dropWhile_map, hp, ← List.map_reverse]

theorem dropWhile_dropWhile {α : Type} (p : α → Bool) (l : List α) :
    (l.dropWhile p).dropWhile p = l.dropWhile p := by
  cases h : l.dropWhile p with
  | nil => rfl
  | cons a t =>
    have hhead := List.head?_dropWhile_not p l
    rw [h] at hhead
    have ha : p a = false := hhead
    simp [List.dropWhile_cons, ha]

theorem dropWhile_eq_self_of_head {α : Type} (p : α → Bool) (l : List α)
    (h : ∀ c, l.head? = some c → p c = false) : l.dropWhile p = l := by
  cases l with
  | nil => rfl
  | cons a t => simp [List.dropWhile_cons, h a rfl]

theorem jsTrim_idem (l : JsStr) : jsTrim (jsTrim l) = jsTrim l := by
  have hrev : (jsTrim l).reverse.dropWhile (fun c => isWsCode c) = (jsTrim l).reverse := by
    simp only [jsTrim, List.reverse_reverse]
    exact dropWhile_dropWhile _ _
  have hhead : (jsTrim l).dropWhile (fun c => isWsCode c) = jsTrim l := by
    apply dropWhile_eq_self_of_head
    intro c hc
    have hy : ((l.dropWhile (fun c => isWsCode c)).reverse.dropWhile (fun c => isWsCode c)).getLast?
        = some c := by
      rw [← List.head?_reverse]
      exact hc
    obtain ⟨z, hz⟩ :=
      List.dropWhile_suffix (l := (l.dropWhile (fun c => isWsCode c)).reverse)
        (fun c => isWsCode c)
    have hx : (l.dropWhile (fun c => isWsCode c)).head? = some c := by
      rw [← List.getLast?_reverse, ← hz, List.getLast?_append, hy]
      rfl
    have hmatch := List.head?_dropWhile_not (fun c => isWsCode c) l
    rw [hx] at hmatch
    exact hmatch
  calc jsTrim (jsTrim l)
      = (((jsTrim l).dropWhile (fun c => isWsCode c)).reverse.dropWhile
          (fun c => isWsCode c)).reverse := rfl
    _ = ((jsTrim l).reverse.dropWhile (fun c => isWsCode c)).reverse := by rw [hhead]
    _ = ((jsTrim l).reverse).reverse := by rw [hrev]
    _ = jsTrim l := List.reverse_reverse _

theorem normalizeEmail_idem (s : JsStr) : normalizeEmail (normalizeEmail s) = normalizeEmail s := by
  simp only [normalizeEmail]
  rw [← jsTrim_jsToLower, jsToLower_idem, jsTrim_idem]

/-- A fixed point of jsTrim is fixed under each of its two dropWhile passes. -/
theorem jsTrim_fixed_parts {l : JsStr} (h : jsTrim l = l) :
    l.dropWhile (fun c => isWsCode c) = l ∧
    l.reverse.dropWhile (fun c => isWsCode c) = l.reverse := by
  obtain ⟨z, hz⟩ := List.dropWhile_suffix (l := l) (fun c => isWsCode c)
  obtain ⟨w, hw⟩ :=
    List.dropWhile_suffix (l := (l.dropWhile (fun c => isWsCode c)).reverse)
      (fun c => isWsCode c)
  have hlenE : ((l.dropWhile (fun c => isWsCode c)).reverse.dropWhile
      (fun c => isWsCode c)).length = l.length := by
    have : jsTrim l = ((l.dropWhile (fun c => isWsCode c)).reverse.dropWhile
        (fun c => isWsCode c)).reverse := rfl
    rw [h] at this
    calc ((l.dropWhile (fun c => isWsCode c)).reverse.dropWhile
        (fun c => isWsCode c)).length
        = ((l.dropWhile (fun c => isWsCode c)).reverse.dropWhile
            (fun c => isWsCode c)).reverse.length := (List.length_reverse _).symm
      _ = l.length := by rw [← this]
  have hlz : z.length + (l.dropWhile (fun c => isWsCode c)).length = l.length := by
    have := congrArg List.length hz
    simpa using this
  have hlw : w.length + ((l.dropWhile (fun c => isWsCode c)).reverse.dropWhile
      (fun c => isWsCode c)).length = (l.dropWhile (fun c => isWsCode c)).length := by
    have := congrArg List.length hw
    simpa using this
  have hzlen : z.length = 0 := by omega
  have hznil : z = [] := List.eq_nil_of_length_eq_zero hzlen
  have hdl : l.dropWhile (fun c => isWsCode c) = l := by
    rw [hznil] at hz
    simpa using hz
  refine ⟨hdl, ?_⟩
  have hwlen : w.length = 0 := by omega
  have hwnil : w = [] := List.eq_nil_of_length_eq_zero hwlen
  rw [hwnil] at hw
  rw [hdl] at hw
  simpa using hw

/-- dropWhile leaves a list with an appended non-matching element unchanged
when it already leaves the list unchanged. -/
theorem dropWhile_append_singleton {α : Type} (p : α → Bool) (l : List α) (a : α)
    (ha : p a = false) (h : l.dropWhile p = l) : (l ++ [a]).dropWhile p = l ++ [a] := by
  cases l with
  | nil => simp [List.dropWhile_cons, ha]
  | cons b t =>
    have hb : p b = false := by
      by_contra hb
      have hb' : p b = true := by
        cases hpb : p b with
        | false => exact absurd hpb hb
        | true => rfl
      rw [List.dropWhile_cons, if_pos hb'] at h
      obtain ⟨z, hz⟩ := List.dropWhile_suffix (l := t) p
      have := congrArg List.length hz
      rw [h] at this
      simp at this
      omega
    simp [List.dropWhile_cons, hb]

/-- Unfolding of normalizeUsername with its let binding reduced. -/
theorem normalizeUsername_eq (s : JsStr) : normalizeUsername s =
    (if (jsTrim (jsToLower s)).head? = some 64 then jsTrim (jsToLower s)
     else 64 :: jsTrim (jsToLower s)) := rfl

theorem normalizeUsername_idem (s : JsStr) :
    normalizeUsername (normalizeUsername s) = normalizeUsername s := by
  have hA : jsToLower (jsTrim (jsToLower s)) = jsTrim (jsToLower s) := by
    rw [← jsTrim_jsToLower, jsToLower_idem]
  have hB : jsTrim (jsTrim (jsToLower s)) = jsTrim (jsToLower s) := jsTrim_idem _
  by_cases h : (jsTrim (jsToLower s)).head? = some 64
  · have hout : normalizeUsername s = jsTrim (jsToLower s) := by
      rw [normalizeUsername_eq, if_pos h]
    rw [hout, normalizeUsername_eq, hA, hB, if_pos h]
  · have hout : normalizeUsername s = 64 :: jsTrim (jsToLower s) := by
      rw [normalizeUsername_eq, if_neg h]
    have h64 : lowerCode 64 = 64 := by decide
    have hlow : jsToLower (64 :: jsTrim (jsToLower s)) = 64 :: jsTrim (jsToLower s) := by
      have hcons : jsToLower (64 :: jsTrim (jsToLower s))
          = lowerCode 64 :: jsToLower (jsTrim (jsToLower s)) := rfl
      rw [hcons, h64, hA]
    have hparts := jsTrim_fixed_parts hB
    have htrim : jsTrim (64 :: jsTrim (jsToLower s)) = 64 :: jsTrim (jsToLower s) := by
      have hws64 : isWsCode 64 = false := by decide
      have hL : (64 :: jsTrim (jsToLower s)).dropWhile (fun c => isWsCode c)
          = 64 :: jsTrim (jsToLower s) := by
        simp [List.dropWhile_cons, hws64]
      have hR : ((64 :: jsTrim (jsToLower s)).reverse).dropWhile (fun c => isWsCode c)
          = (64 :: jsTrim (jsToLower s)).reverse := by
        rw [List.reverse_cons]
        exact dropWhile_append_singleton _ _ _ hws64 hparts.2
      calc jsTrim (64 :: jsTrim (jsToLower s))
          = (((64 :: jsTrim (jsToLower s)).dropWhile
              (fun c => isWsCode c)).reverse.dropWhile (fun c => isWsCode c)).reverse := rfl
        _ = ((64 :: jsTrim (jsToLower s)).reverse.dropWhile (fun c => isWsCode c)).reverse := by
            rw [hL]
        _ = ((64 :: jsTrim (jsToLower s)).reverse).reverse := by rw [hR]
        _ = 64 :: jsTrim (jsToLower s) := List.reverse_reverse _
    rw [hout, normalizeUsername_eq, hlow, htrim]
    simp

/-! ### Phone normalization facts -/

theorem digitsOf_digitsOf (s : JsStr) : digitsOf (digitsOf s) = digitsOf s :=
  List.filter_eq_self.mpr fun _ hc => List.of_mem_filter hc

theorem digitsOf_cons_plus (d : JsStr) : digitsOf (43 :: d) = digitsOf d := by
  have h43 : isDigitCode 43 = false := by decide
  simp [digitsOf, List.filter_cons, h43]

theorem digitsOf_cons_one (d : JsStr) : digitsOf (49 :: d) = 49 :: digitsOf d := by
  have h49 : isDigitCode 49 = true := by decide
  simp [digitsOf, List.filter_cons, h49]

/-- Unfolding of normalizePhone with its let binding reduced. -/
theorem normalizePhone_eq (s : JsStr) : normalizePhone s =
    (if (digitsOf s).length = 11 ∧ (digitsOf s).head? = some 49 then 43 :: digitsOf s
     else if (digitsOf s).length = 10 then 43 :: 49 :: digitsOf s
     else 43 :: digitsOf s) := rfl

theorem normalizePhone_idem (s : JsStr) : normalizePhone (normalizePhone s) = normalizePhone s := by
  have hd : digitsOf (digitsOf s) = digitsOf s := digitsOf_digitsOf s
  rw [normalizePhone_eq s]
  split_ifs with h1 h2
  · rw [normalizePhone_eq, digitsOf_cons_plus, hd, if_pos h1]
  · rw [normalizePhone_eq, digitsOf_cons_plus, digitsOf_cons_one, hd]
    have hc : (49 :: digitsOf s).length = 11 ∧ (49 :: digitsOf s).head? = some 49 := by
      simp [List.length_cons, h2]
    rw [if_pos hc]
  · rw [normalizePhone_eq, digitsOf_cons_plus, hd, if_neg h1, if_neg h2]

/-- C7: for every alias type and every input string, normalization is
idempotent: normalizing an already-normalized alias is a fixed point. -/
theorem normalizeAlias_idempotent (ty : AliasType) (v : JsStr) :
    normalizeAlias ty (normalizeAlias ty v) = normalizeAlias ty v := by
  cases ty with
  | EMAIL => exact normalizeEmail_idem v
  | PHONE => exact normalizePhone_idem v
  | USERNAME => exact normalizeUsername_idem v
  | RANDOM_KEY => exact jsToUpper_idem v

/-! ## Transfer saga data model (prisma schema + src/routes/transfers.ts) -/

/-- Prisma enum TransferStatus. -/
inductive TransferStatus where
  | PENDING
  | RESOLVING
  | RECIPIENT_NOT_FOUND
  | DEBITING
  | DEBIT_FAILED
  | CREDITING
  | CREDIT_FAILED
  | COMPLETED
  | CANCELLED
  | EXPIRED
  | REVERSED
deriving DecidableEq, Repr

/-- Prisma enum RecipientType. -/
inductive RecipientType where
  | INDIVIDUAL
  | MICRO_MERCHANT
deriving DecidableEq, Repr

/-- The transfers table row, restricted to the fields the saga reads or
writes. completedAt is modelled as a flag recording whether the timestamp
column is non-null. -/
structure Transfer where
  id : String
  transferId : String
  senderUserId : String
  senderBsimId : String
  senderAccountId : String
  recipientAlias : String
  recipientAliasType : AliasType
  amount : ℚ
  currency : String
  description : Option String
  status : TransferStatus
  statusMessage : Option String
  recipientUserId : Option String
  recipientBsimId : Option String
  recipientAccountId : Option String
  recipientType : RecipientType
  microMerchantId : Option String
  feeAmount : Option ℚ
  debitTransactionId : Option String
  creditTransactionId : Option String
  completedAt : Bool
deriving DecidableEq, Repr

/-- A verified, active alias row as returned by the resolution query. -/
structure AliasRec where
  userId : String
  bsimId : String
  accountId : Option String
deriving DecidableEq, Repr

/-- A micro-merchant row, restricted to the fields the saga reads. -/
structure Merchant where
  merchantId : String
  isActive : Bool
deriving DecidableEq, Repr

/-- BsimTransactionResponse from src/services/bsimClient.ts: transactionId is
optional even on success. -/
structure BsimResp where
  success : Bool
  transactionId : Option String
  error : Option String
  message : Option String
deriving DecidableEq, Repr

/-- Arguments of BsimClient.debit. -/
structure DebitReq where
  userId : String
  accountId : String
  amount : ℚ
  currency : String
  transferId : String
  description : String
deriving DecidableEq, Repr

/-- Arguments of BsimClient.credit (accountId optional). -/
structure CreditReq where
  userId : String
  accountId : Option String
  amount : ℚ
  currency : String
  transferId : String
  description : String
deriving DecidableEq, Repr

/-- Arguments of BsimClient.escrowRelease. -/
structure EscrowReq where
  escrowId : String
  contractId : String
  transferId : String
  reason : String
deriving DecidableEq, Repr

/-- One outbound money-movement call to a bank connector, tagged with the
bank it was sent to. -/
inductive BankCall where
  | debit (bsimId : String) (req : DebitReq)
  | credit (bsimId : String) (req : CreditReq)
  | escrowRelease (bsimId : String) (req : EscrowReq)
deriving DecidableEq, Repr

/-- The external world as the sagas observe it: the alias registry, the
merchant registry, the bank-connection registry (whether BsimClient.forBsim
finds an active connection), and the response each bank gives to each call. -/
structure Env where
  findAlias : AliasType → String → Option AliasRec
  findMerchant : String → String → Option Merchant
  hasBsimConnection : String → Bool
  debitResult : String → DebitReq → BsimResp
  creditResult : String → CreditReq → BsimResp
  escrowReleaseResult : String → EscrowReq → BsimResp

/-- calculateFee from src/routes/micro-merchants.ts: tiered flat fee. -/
def calculateFee (amount : ℚ) : ℚ :=
  if amount < 200 then 1/4 else 1/2

/-- Result of one saga execution: the final row, the sequence of status
values written to the row, and the bank calls issued, in order. -/
structure TransferRun where
  final : Transfer
  writes : List TransferStatus
  calls : List BankCall
deriving Repr

/-- executeSameBankTransfer from src/routes/transfers.ts. -/
def executeSameBankTransfer (env : Env) (t : Transfer) (a : AliasRec) : TransferRun :=
  if env.hasBsimConnection t.senderBsimId = false then
    { final :=
        { t with
          status := TransferStatus.DEBIT_FAILED
          statusMessage := some "BSIM connection not configured" }
      writes := [.DEBIT_FAILED]
      calls := [] }
  else
    let dreq : DebitReq :=
      { userId := t.senderUserId
        accountId := t.senderAccountId
        amount := t.amount
        currency := t.currency
        transferId := t.id
        description := t.description.getD "P2P Transfer" }
    let dr := env.debitResult t.senderBsimId dreq
    if dr.success = false then
      { final :=
          { t with
            status := TransferStatus.DEBIT_FAILED
            statusMessage := some ((dr.message.or dr.error).getD "Debit failed") }
        writes := [.DEBIT_FAILED]
        calls := [.debit t.senderBsimId dreq] }
    else
      let t3 :=
        { t with
          debitTransactionId := dr.transactionId.or t.debitTransactionId
          status := TransferStatus.CREDITING }
      let creq : CreditReq :=
        { userId := a.userId
          accountId := a.accountId
          amount := t.amount
          currency := t.currency
          transferId := t.id
          description := t.description.getD "P2P Transfer" }
      let cr := env.creditResult t.senderBsimId creq
      if cr.success = false then
        { final :=
            { t3 with
              status := TransferStatus.CREDIT_FAILED
              statusMessage :=
                some ((cr.message.or cr.error).getD "Credit failed (debit may need reversal)") }
          writes := [.CREDITING, .CREDIT_FAILED]
          calls := [.debit t.senderBsimId dreq, .credit t.senderBsimId creq] }
      else
        { final :=
            { t3 with
              status := TransferStatus.COMPLETED
              statusMessage := some "Transfer completed successfully"
              completedAt := true
              creditTransactionId := cr.transactionId.or t3.creditTransactionId }
          writes := [.CREDITING, .COMPLETED]
          calls := [.debit t.senderBsimId dreq, .credit t.senderBsimId creq] }

/-- executeCrossBankTransfer from src/routes/transfers.ts. -/
def executeCrossBankTransfer (env : Env) (t : Transfer) (a : AliasRec) : TransferRun :=
  if env.hasBsimConnection t.senderBsimId = false then
    { final :=
        { t with
          status := TransferStatus.DEBIT_FAILED
          statusMessage := some "Sender BSIM connection not configured" }
      writes := [.DEBIT_FAILED]
      calls := [] }
  else if env.hasBsimConnection a.bsimId = false then
    { final :=
        { t with
          status := TransferStatus.CREDIT_FAILED
          statusMessage := some "Recipient BSIM connection not configured" }
      writes := [.CREDIT_FAILED]
      calls := [] }
  else
    let dreq : DebitReq :=
      { userId := t.senderUserId
        accountId := t.senderAccountId
        amount := t.amount
        currency := t.currency
        transferId := t.id
        description := t.description.getD "P2P Transfer (Cross-bank)" }
    let dr := env.debitResult t.senderBsimId dreq
    if dr.success = false then
      { final :=
          { t with
            status := TransferStatus.DEBIT_FAILED
            statusMessage := some ((dr.message.or dr.error).getD "Debit failed") }
        writes := [.DEBIT_FAILED]
        calls := [.debit t.senderBsimId dreq] }
    else
      let t3 :=
        { t with
          debitTransactionId := dr.transactionId.or t.debitTransactionId
          status := TransferStatus.CREDITING }
      let creq : CreditReq :=
        { userId := a.userId
          accountId := a.accountId
          amount := t.amount
          currency := t.currency
          transferId := t.id
          description := t.description.getD "P2P Transfer (Cross-bank)" }
      let cr := env.creditResult a.bsimId creq
      if cr.success = false then
        { final :=
            { t3 with
              status := TransferStatus.CREDIT_FAILED
              statusMessage := some ((cr.message.or cr.error).getD
                "Credit failed at recipient bank (debit may need reversal)") }
          writes := [.CREDITING, .CREDIT_FAILED]
          calls := [.debit t.senderBsimId dreq, .credit a.bsimId creq] }
      else
        { final :=
            { t3 with
              status := TransferStatus.COMPLETED
              statusMessage := some "Cross-bank transfer completed successfully"
              completedAt := true
              creditTransactionId := cr.transactionId.or t3.creditTransactionId }
          writes := [.CREDITING, .COMPLETED]
          calls := [.debit t.senderBsimId dreq, .credit a.bsimId creq] }

/-- processTransfer from src/routes/transfers.ts: the async transfer saga. -/
def processTransfer (env : Env) (t : Transfer) : TransferRun :=
  if t.status ≠ .PENDING then { final := t, writes := [], calls := [] }
  else
    match env.findAlias t.recipientAliasType t.recipientAlias with
    | none =>
      { final :=
          { t with
            status := TransferStatus.RECIPIENT_NOT_FOUND
            statusMessage := some "Recipient alias not found or not verified" }
        writes := [.RESOLVING, .RECIPIENT_NOT_FOUND]
        calls := [] }
    | some a =>
      if a.userId = t.senderUserId ∧ a.bsimId = t.senderBsimId then
        { final :=
            { t with
              status := TransferStatus.DEBIT_FAILED
              statusMessage := some "Cannot transfer to yourself" }
          writes := [.RESOLVING, .DEBIT_FAILED]
          calls := [] }
      else
        let merchant := env.findMerchant a.userId a.bsimId
        let isMerchantPayment := match merchant with
          | some m => m.isActive
          | none => false
        let fee : Option ℚ := if isMerchantPayment then some (calculateFee t.amount) else none
        let t2 := { t with
          recipientUserId := some a.userId,
          recipientBsimId := some a.bsimId,
          recipientAccountId := a.accountId,
          recipientType := if isMerchantPayment then RecipientType.MICRO_MERCHANT
            else RecipientType.INDIVIDUAL,
          microMerchantId := if isMerchantPayment then merchant.map Merchant.merchantId else none,
          feeAmount := fee,
          status := TransferStatus.DEBITING }
        let run :=
          if t.senderBsimId = a.bsimId then executeSameBankTransfer env t2 a
          else executeCrossBankTransfer env t2 a
        { final := run.final,
          writes := .RESOLVING :: .DEBITING :: run.writes,
          calls := run.calls }

/-- The statuses accepted by the cancel route. -/
def cancellableStatuses : List TransferStatus := [.PENDING, .RESOLVING, .RECIPIENT_NOT_FOUND]

/-- The cancel route handler check-and-set (src/routes/transfers.ts):
returns the updated row, or none for the 400 rejection. -/
def cancelTransfer (t : Transfer) : Option Transfer :=
  if t.status ∈ cancellableStatuses then
    some { t with status := .CANCELLED, statusMessage := some "Cancelled by sender" }
  else none

/-! ## Settlement saga data model (src/routes/settlements.ts) -/

/-- Prisma enum SettlementStatus. -/
inductive SettlementStatus where
  | PENDING
  | PROCESSING
  | COMPLETED
  | FAILED
deriving DecidableEq, Repr

/-- The settlements table row, restricted to the fields the saga reads or
writes; metadata is restricted to the contract_title key, the only one the
saga reads. -/
structure Settlement where
  id : String
  settlementId : String
  idempotencyKey : String
  contractId : String
  settlementType : String
  fromWalletId : String
  fromBsimId : String
  fromEscrowId : Option String
  toWalletId : String
  toBsimId : String
  amount : ℚ
  currency : String
  metadataContractTitle : Option String
  status : SettlementStatus
  statusMessage : Option String
  errorCode : Option String
  transferId : Option String
  completedAt : Bool
deriving DecidableEq, Repr

/-- The record processSettlement returns to the route handler. -/
structure SettleResult where
  settlementId : String
  transferId : Option String
  status : SettlementStatus
  amount : ℚ
  fromWalletId : String
  toWalletId : String
  completedAt : Bool
  errorCode : Option String
  statusMessage : Option String
deriving DecidableEq, Repr

/-- extractUserIdFromWalletId: strip a WLLT- prefix, else use as-is. -/
def extractUserIdFromWalletId (walletId : String) : String :=
  if walletId.startsWith "WLLT-" then walletId.drop 5 else walletId

/-- markSettlementFailed: set the settlement row FAILED with the error code
and message, link the transfer, and build the FAILED result record. -/
def markSettlementFailed (s : Settlement) (errorCode statusMessage : String)
    (transferId : Option String) : Settlement × SettleResult :=
  let s2 :=
    { s with
      status := SettlementStatus.FAILED
      errorCode := some errorCode
      statusMessage := some statusMessage
      transferId := transferId }
  (s2,
    { settlementId := s2.settlementId
      transferId := transferId
      status := SettlementStatus.FAILED
      amount := s2.amount
      fromWalletId := s2.fromWalletId
      toWalletId := s2.toWalletId
      completedAt := false
      errorCode := some errorCode
      statusMessage := some statusMessage })

/-- Result of one settlement-saga execution: the final settlement row, the
linked transfer row it created (if any), the bank calls issued in order, and
the record returned to the route handler. -/
structure SettlementRun where
  settlement : Settlement
  transfer : Option Transfer
  calls : List BankCall
  result : SettleResult
deriving Repr

/-- The description string derived from the settlement metadata. -/
def settlementDescription (s : Settlement) : String :=
  match s.metadataContractTitle with
  | some ti => "Contract Settlement: " ++ ti
  | none => "Contract Settlement"

/-- The shared completion tail of processSettlement: mark the linked
transfer COMPLETED with the credit transaction id, then mark the settlement
COMPLETED with the linked transfer id and timestamp and build the success
result (whose error fields are returned null). -/
def settleComplete (s1 : Settlement) (tr2 : Transfer) (cr : BsimResp) (tid : String)
    (calls : List BankCall) : SettlementRun :=
  let tr4 :=
    { tr2 with
      creditTransactionId := cr.transactionId.or tr2.creditTransactionId
      status := TransferStatus.COMPLETED
      completedAt := true
      statusMessage := some "Settlement completed successfully" }
  let s3 :=
    { s1 with
      status := SettlementStatus.COMPLETED
      statusMessage := some "Settlement completed successfully"
      transferId := some tid
      completedAt := true }
  { settlement := s3
    transfer := some tr4
    calls := calls
    result :=
      { settlementId := s3.settlementId
        transferId := some tid
        status := SettlementStatus.COMPLETED
        amount := s3.amount
        fromWalletId := s3.fromWalletId
        toWalletId := s3.toWalletId
        completedAt := true
        errorCode := none
        statusMessage := none } }

/-- The escrow-based execution branch of processSettlement: release the
escrow at the source bank (a debit-only operation), then credit the
destination. -/
def settleEscrowPath (env : Env) (s1 : Settlement) (tr0 : Transfer) (ereq : EscrowReq)
    (creq : CreditReq) (tid : String) : SettlementRun :=
  let er := env.escrowReleaseResult s1.fromBsimId ereq
  if er.success = false then
    let fr := markSettlementFailed s1 "ESCROW_RELEASE_FAILED"
      (er.error.getD "Escrow release failed") (some tid)
    { settlement := fr.1
      transfer := some
        { tr0 with
          status := TransferStatus.DEBIT_FAILED
          statusMessage := some (er.error.getD "Escrow release failed") }
      calls := [.escrowRelease s1.fromBsimId ereq]
      result := fr.2 }
  else
    let tr2 :=
      { tr0 with
        debitTransactionId := er.transactionId.or tr0.debitTransactionId
        status := TransferStatus.CREDITING }
    let cr := env.creditResult s1.toBsimId creq
    if cr.success = false then
      let fr := markSettlementFailed s1 "CREDIT_FAILED"
        (cr.error.getD "Credit failed (escrow released, needs compensation)") (some tid)
      { settlement := fr.1
        transfer := some
          { tr2 with
            status := TransferStatus.CREDIT_FAILED
            statusMessage := some (cr.error.getD "Credit failed") }
        calls := [.escrowRelease s1.fromBsimId ereq, .credit s1.toBsimId creq]
        result := fr.2 }
    else
      settleComplete s1 tr2 cr tid
        [.escrowRelease s1.fromBsimId ereq, .credit s1.toBsimId creq]

/-- The regular debit-then-credit execution branch of processSettlement. -/
def settleDebitPath (env : Env) (s1 : Settlement) (tr0 : Transfer) (dreq : DebitReq)
    (creq : CreditReq) (tid : String) : SettlementRun :=
  let dr := env.debitResult s1.fromBsimId dreq
  if dr.success = false then
    let fr := markSettlementFailed s1 "DEBIT_FAILED" (dr.error.getD "Debit failed") (some tid)
    { settlement := fr.1
      transfer := some
        { tr0 with
          status := TransferStatus.DEBIT_FAILED
          statusMessage := some (dr.error.getD "Debit failed") }
      calls := [.debit s1.fromBsimId dreq]
      result := fr.2 }
  else
    let tr2 :=
      { tr0 with
        debitTransactionId := dr.transactionId.or tr0.debitTransactionId
        status := TransferStatus.CREDITING }
    let cr := env.creditResult s1.toBsimId creq
    if cr.success = false then
      let fr := markSettlementFailed s1 "CREDIT_FAILED"
        (cr.error.getD "Credit failed (debit may need reversal)") (some tid)
      { settlement := fr.1
        transfer := some
          { tr2 with
            status := TransferStatus.CREDIT_FAILED
            statusMessage := some (cr.error.getD "Credit failed") }
        calls := [.debit s1.fromBsimId dreq, .credit s1.toBsimId creq]
        result := fr.2 }
    else
      settleComplete s1 tr2 cr tid [.debit s1.fromBsimId dreq, .credit s1.toBsimId creq]

/-- processSettlement from src/routes/settlements.ts. The generated
transfer ids (public p2p id and database id) are passed in, standing for
generateTransferId and the database-assigned row id. -/
def processSettlement (env : Env) (s : Settlement) (tid internalId : String) : SettlementRun :=
  let s1 := { s with status := SettlementStatus.PROCESSING }
  let fromUserId := extractUserIdFromWalletId s.fromWalletId
  let toUserId := extractUserIdFromWalletId s.toWalletId
  let description := settlementDescription s
  let hasFrom := env.hasBsimConnection s.fromBsimId
  let hasTo := if s.fromBsimId = s.toBsimId then hasFrom else env.hasBsimConnection s.toBsimId
  if hasFrom = false then
    let fr := markSettlementFailed s1 "BANK_UNAVAILABLE" "Source bank not configured" none
    { settlement := fr.1, transfer := none, calls := [], result := fr.2 }
  else if hasTo = false then
    let fr := markSettlementFailed s1 "BANK_UNAVAILABLE" "Destination bank not configured" none
    { settlement := fr.1, transfer := none, calls := [], result := fr.2 }
  else
    let tr0 : Transfer :=
      { id := internalId
        transferId := tid
        senderUserId := fromUserId
        senderBsimId := s.fromBsimId
        senderAccountId := "default"
        recipientAlias := toUserId
        recipientAliasType := AliasType.USERNAME
        amount := s.amount
        currency := s.currency
        description := some description
        status := TransferStatus.DEBITING
        statusMessage := none
        recipientUserId := some toUserId
        recipientBsimId := some s.toBsimId
        recipientAccountId := none
        recipientType := RecipientType.INDIVIDUAL
        microMerchantId := none
        feeAmount := none
        debitTransactionId := none
        creditTransactionId := none
        completedAt := false }
    let creq : CreditReq :=
      { userId := toUserId
        accountId := none
        amount := s.amount
        currency := s.currency
        transferId := internalId
        description := description ++ " - Credit" }
    match s.fromEscrowId with
    | some eid =>
      settleEscrowPath env s1 tr0
        { escrowId := eid
          contractId := s.contractId
          transferId := internalId
          reason := description } creq tid
    | none =>
      settleDebitPath env s1 tr0
        { userId := fromUserId
          accountId := "default"
          amount := s.amount
          currency := s.currency
          transferId := internalId
          description := description ++ " - Debit" } creq tid

/-! ## Settlement-create route handler (POST /api/v1/settlements) -/

/-- The persisted state the handler reads and writes. -/
structure DB where
  settlements : List Settlement
  transfers : List Transfer
deriving Repr

/-- prisma.settlement.findUnique on the unique idempotencyKey column. -/
def findSettlementByKey (db : DB) (k : String) : Option Settlement :=
  db.settlements.find? (fun s => s.idempotencyKey == k)

/-- A request body that passed createSettlementSchema validation. -/
structure SettlementBody where
  contractId : String
  settlementType : String
  fromWalletId : String
  fromBsimId : String
  fromEscrowId : Option String
  toWalletId : String
  toBsimId : String
  amount : ℚ
  currency : String
  metadataContractTitle : Option String
deriving DecidableEq, Repr

/-- HTTP status codes the settlement-create handler can answer with. -/
inductive HttpStatus where
  | ok200
  | accepted202
  | badRequest400
  | unprocessable422
deriving DecidableEq, Repr

/-- Response status derivation used on both the cached and the fresh path:
COMPLETED gives 200, FAILED gives 422, anything else 202. -/
def settlementHttpStatus : SettlementStatus → HttpStatus
  | .COMPLETED => .ok200
  | .FAILED => .unprocessable422
  | _ => .accepted202

/-- status.toLowerCase() on a settlement status. -/
def settlementStatusLower : SettlementStatus → String
  | .PENDING => "pending"
  | .PROCESSING => "processing"
  | .COMPLETED => "completed"
  | .FAILED => "failed"

/-- The JSON body of a settlement-create response. -/
structure SettlementResponse where
  settlement_id : String
  transfer_id : Option String
  statusText : String
  amount : ℚ
  from_wallet_id : String
  to_wallet_id : String
  completed_at : Bool
  error : Option String
  error_message : Option String
deriving DecidableEq, Repr

/-- The cached response built from a stored settlement row when the
idempotency key matches. -/
def cachedSettlementResponse (s : Settlement) : SettlementResponse :=
  { settlement_id := s.settlementId
    transfer_id := s.transferId
    statusText := settlementStatusLower s.status
    amount := s.amount
    from_wallet_id := s.fromWalletId
    to_wallet_id := s.toWalletId
    completed_at := s.completedAt
    error := s.errorCode
    error_message := s.statusMessage }

/-- The response built from the fresh-execution result record. -/
def resultSettlementResponse (r : SettleResult) : SettlementResponse :=
  { settlement_id := r.settlementId
    transfer_id := r.transferId
    statusText := settlementStatusLower r.status
    amount := r.amount
    from_wallet_id := r.fromWalletId
    to_wallet_id := r.toWalletId
    completed_at := r.completedAt
    error := r.errorCode
    error_message := r.statusMessage }

/-- The row created by prisma.settlement.create on a fresh idempotency key. -/
def mkSettlement (dbId sid k : String) (b : SettlementBody) : Settlement :=
  { id := dbId
    settlementId := sid
    idempotencyKey := k
    contractId := b.contractId
    settlementType := b.settlementType
    fromWalletId := b.fromWalletId
    fromBsimId := b.fromBsimId
    fromEscrowId := b.fromEscrowId
    toWalletId := b.toWalletId
    toBsimId := b.toBsimId
    amount := b.amount
    currency := b.currency
    metadataContractTitle := b.metadataContractTitle
    status := SettlementStatus.PENDING
    statusMessage := none
    errorCode := none
    transferId := none
    completedAt := false }

/-- Freshly generated identifiers consumed on the fresh-key path. -/
structure FreshIds where
  settlementDbId : String
  settlementId : String
  transferId : String
  transferDbId : String
deriving DecidableEq, Repr

/-- What one settlement-create request produced: HTTP status, response body
(none stands for the error bodies of the 400 rejections), resulting
database state, and bank calls issued. -/
structure CreateOutcome where
  http : HttpStatus
  body : Option SettlementResponse
  db : DB
  calls : List BankCall
deriving Repr

/-- The settlement-create handler: idempotency-key extraction, cached-result
lookup, body validation (body none stands for a body that fails
createSettlementSchema), settlement creation and synchronous execution. -/
def settlementCreate (env : Env) (db : DB) (idemKey : Option String)
    (body : Option SettlementBody) (ids : FreshIds) : CreateOutcome :=
  match idemKey with
  | none => { http := .badRequest400, body := none, db := db, calls := [] }
  | some k =>
    match findSettlementByKey db k with
    | some s =>
      { http := settlementHttpStatus s.status
        body := some (cachedSettlementResponse s)
        db := db
        calls := [] }
    | none =>
      match body with
      | none => { http := .badRequest400, body := none, db := db, calls := [] }
      | some b =>
        let s0 := mkSettlement ids.settlementDbId ids.settlementId k b
        let run := processSettlement env s0 ids.transferId ids.transferDbId
        { http := settlementHttpStatus run.result.status
          body := some (resultSettlementResponse run.result)
          db :=
            { settlements := db.settlements ++ [run.settlement]
              transfers := db.transfers ++ run.transfer.toList }
          calls := run.calls }

/-! ## Settlement webhook delivery (src/services/settlementWebhookService.ts) -/

/-- What one fetch of the webhook URL can produce: an HTTP response with a
status code, or a thrown network error. -/
inductive FetchOutcome where
  | response (code : Nat)
  | netError
deriving DecidableEq, Repr

/-- Terminal outcomes of sendWithRetry: delivered (returned true), stopped on
a non-retryable client error (returned false inside the loop), or exhausted
all attempts and logged the dead-letter line (returned false after it). -/
inductive SendResult where
  | delivered
  | clientError
  | deadLettered
deriving DecidableEq, Repr

/-- Retry configuration: exponential backoff. -/
def RETRY_DELAYS : List Nat := [1000, 2000, 4000, 8000, 16000]

/-- Maximum number of retries after the first attempt. -/
def MAX_RETRIES : Nat := 5

/-- Observable behaviour of one sendWithRetry execution: its outcome, how
many fetch attempts it made, and the sleeps it performed between
consecutive attempts, in order. -/
structure SendTrace where
  result : SendResult
  attempts : Nat
  sleeps : List Nat
deriving DecidableEq, Repr

/-- The condition under which the loop returns false without retrying:
a 4xx response other than 429. -/
def isNonRetryable4xx : FetchOutcome → Bool
  | .response code => decide (400 ≤ code) && decide (code < 500) && decide (code ≠ 429)
  | .netError => false

/-- The retry triggers named by the spec: a 5xx response, a 429 response, or
a network error. -/
def claimRetryable : FetchOutcome → Bool
  | .response code => decide (500 ≤ code) || decide (code = 429)
  | .netError => true

/-- The loop body of sendWithRetry from attempt number onwards. Success
(response.ok, a 2xx code) returns true; a 4xx other than 429 returns false;
anything else falls through, sleeps RETRY_DELAYS[attempt] when another
attempt remains, and continues; falling out of the loop dead-letters. -/
def sendFrom (env : Nat → FetchOutcome) (attempt : Nat) : SendTrace :=
  match env attempt with
  | .response code =>
    if 200 ≤ code ∧ code < 300 then
      { result := .delivered, attempts := 1, sleeps := [] }
    else if 400 ≤ code ∧ code < 500 ∧ code ≠ 429 then
      { result := .clientError, attempts := 1, sleeps := [] }
    else if h : attempt < MAX_RETRIES then
      let rest := sendFrom env (attempt + 1)
      { result := rest.result
        attempts := rest.attempts + 1
        sleeps := RETRY_DELAYS.getD attempt 16000 :: rest.sleeps }
    else
      { result := .deadLettered, attempts := 1, sleeps := [] }
  | .netError =>
    if h : attempt < MAX_RETRIES then
      let rest := sendFrom env (attempt + 1)
      { result := rest.result
        attempts := rest.attempts + 1
        sleeps := RETRY_DELAYS.getD attempt 16000 :: rest.sleeps }
    else
      { result := .deadLettered, attempts := 1, sleeps := [] }
termination_by MAX_RETRIES - attempt
decreasing_by
  all_goals simp only [MAX_RETRIES] at *
  all_goals omega

/-- sendWithRetry: the loop starting at attempt 0. -/
def sendWithRetry (env : Nat → FetchOutcome) : SendTrace := sendFrom env 0

/-- The behaviour the retry-policy claim asserts, for the loop started at
attempt k. -/
def SendSpec (env : Nat → FetchOutcome) (k : Nat) : Prop :=
  1 ≤ (sendFrom env k).attempts ∧
  (sendFrom env k).attempts ≤ 6 - k ∧
  (sendFrom env k).sleeps = (RETRY_DELAYS.drop k).take ((sendFrom env k).attempts - 1) ∧
  (∀ j, k + j < 5 → j < (sendFrom env k).attempts → claimRetryable (env (k + j)) = true →
    j + 1 < (sendFrom env k).attempts) ∧
  (∀ j, j < (sendFrom env k).attempts → isNonRetryable4xx (env (k + j)) = true →
    (sendFrom env k).result = .clientError ∧ (sendFrom env k).attempts = j + 1) ∧
  ((sendFrom env k).result = .deadLettered →
    (sendFrom env k).attempts = 6 - k ∧ (sendFrom env k).sleeps = RETRY_DELAYS.drop k)

theorem retryDelays_length : RETRY_DELAYS.length = 5 := by decide

theorem sendSpec_base (env : Nat → FetchOutcome) : SendSpec env 5 := by
  have hbody : sendFrom env 5 = (match env 5 with
    | FetchOutcome.response code =>
      if 200 ≤ code ∧ code < 300 then
        ({ result := .delivered, attempts := 1, sleeps := [] } : SendTrace)
      else if 400 ≤ code ∧ code < 500 ∧ code ≠ 429 then
        ({ result := .clientError, attempts := 1, sleeps := [] } : SendTrace)
      else ({ result := .deadLettered, attempts := 1, sleeps := [] } : SendTrace)
    | FetchOutcome.netError =>
      ({ result := .deadLettered, attempts := 1, sleeps := [] } : SendTrace)) := by
    rw [sendFrom]
    cases env 5 with
    | response code =>
      simp only [MAX_RETRIES]
      norm_num
    | netError =>
      simp only [MAX_RETRIES]
      norm_num
  unfold SendSpec
  rw [hbody]
  cases henv : env 5 with
  | response code =>
    dsimp only
    split_ifs with h2 h4
    · refine ⟨by norm_num, by norm_num, by simp, ?_, ?_, by simp⟩
      · intro j hj _ _
        omega
      · intro j hj hr
        interval_cases j
        rw [show (5 : Nat) + 0 = 5 from rfl, henv] at hr
        simp only [isNonRetryable4xx, Bool.and_eq_true, decide_eq_true_eq] at hr
        omega
    · refine ⟨by norm_num, by norm_num, by simp, ?_, ?_, by simp⟩
      · intro j hj _ _
        omega
      · intro j hj _
        interval_cases j
        exact ⟨rfl, rfl⟩
    · refine ⟨by norm_num, by norm_num, by simp, ?_, ?_, ?_⟩
      · intro j hj _ _
        omega
      · intro j hj hr
        interval_cases j
        rw [show (5 : Nat) + 0 = 5 from rfl, henv] at hr
        simp only [isNonRetryable4xx, Bool.and_eq_true, decide_eq_true_eq] at hr
        omega
      · intro _
        exact ⟨rfl, by simp [RETRY_DELAYS]⟩
  | netError =>
    dsimp only
    refine ⟨by norm_num, by norm_num, by simp, ?_, ?_, ?_⟩
    · intro j hj _ _
      omega
    · intro j hj hr
      interval_cases j
      rw [show (5 : Nat) + 0 = 5 from rfl, henv] at hr
      simp [isNonRetryable4xx] at hr
    · intro _
      exact ⟨rfl, by simp [RETRY_DELAYS]⟩

theorem sendSpec_step (env : Nat → FetchOutcome) (k : Nat) (hk : k < 5)
    (ih : SendSpec env (k + 1)) : SendSpec env k := by
  obtain ⟨ih1, ih2, ih3, ih4, ih5, ih6⟩ := ih
  have hkd : k < RETRY_DELAYS.length := by rw [retryDelays_length]; exact hk
  have hdropk : RETRY_DELAYS.drop k = RETRY_DELAYS.getD k 16000 :: RETRY_DELAYS.drop (k + 1) := by
    rw [List.drop_eq_getElem_cons hkd, List.getD_eq_getElem RETRY_DELAYS 16000 hkd]
  have hbody : sendFrom env k = (match env k with
    | FetchOutcome.response code =>
      if 200 ≤ code ∧ code < 300 then
        ({ result := .delivered, attempts := 1, sleeps := [] } : SendTrace)
      else if 400 ≤ code ∧ code < 500 ∧ code ≠ 429 then
        ({ result := .clientError, attempts := 1, sleeps := [] } : SendTrace)
      else
        ({ result := (sendFrom env (k + 1)).result
           attempts := (sendFrom env (k + 1)).attempts + 1
           sleeps := RETRY_DELAYS.getD k 16000 :: (sendFrom env (k + 1)).sleeps } : SendTrace)
    | FetchOutcome.netError =>
      ({ result := (sendFrom env (k + 1)).result
         attempts := (sendFrom env (k + 1)).attempts + 1
         sleeps := RETRY_DELAYS.getD k 16000 :: (sendFrom env (k + 1)).sleeps } : SendTrace)) := by
    rw [sendFrom]
    have hklt : k < MAX_RETRIES := by simp only [MAX_RETRIES]; omega
    cases env k with
    | response code => simp only [dif_pos hklt]
    | netError => simp only [dif_pos hklt]
  unfold SendSpec
  rw [hbody]
  cases henv : env k with
  | response code =>
    dsimp only
    split_ifs with h2 h4
    · refine ⟨by norm_num, by dsimp only; omega, by simp, ?_, ?_, by simp⟩
      · intro j hj hlt hr
        interval_cases j
        rw [Nat.add_zero, henv] at hr
        simp only [claimRetryable, Bool.or_eq_true, decide_eq_true_eq] at hr
        omega
      · intro j hlt hr
        interval_cases j
        rw [Nat.add_zero, henv] at hr
        simp only [isNonRetryable4xx, Bool.and_eq_true, decide_eq_true_eq] at hr
        omega
    · refine ⟨by norm_num, by dsimp only; omega, by simp, ?_, ?_, by simp⟩
      · intro j hj hlt hr
        interval_cases j
        rw [Nat.add_zero, henv] at hr
        simp only [claimRetryable, Bool.or_eq_true, decide_eq_true_eq] at hr
        omega
      · intro j hlt _
        interval_cases j
        exact ⟨rfl, rfl⟩
    · refine ⟨by simp, by simp; omega, ?_, ?_, ?_, ?_⟩
      · simp only
        rw [ih3, hdropk]
        have ha : (sendFrom env (k + 1)).attempts + 1 - 1 = ((sendFrom env (k + 1)).attempts - 1) + 1 := by
          omega
        rw [ha, List.take_succ_cons]
      · intro j hj hlt hr
        match j with
        | 0 => simp only; omega
        | j' + 1 =>
          have hj' : (k + 1) + j' < 5 := by omega
          have hlt' : j' < (sendFrom env (k + 1)).attempts := by simp only at hlt; omega
          have hr' : claimRetryable (env ((k + 1) + j')) = true := by
            rw [show (k + 1) + j' = k + (j' + 1) by omega]
            exact hr
          have := ih4 j' hj' hlt' hr'
          simp only
          omega
      · intro j hlt hr
        match j with
        | 0 =>
          rw [Nat.add_zero, henv] at hr
          simp only [isNonRetryable4xx, Bool.and_eq_true, decide_eq_true_eq] at hr
          omega
        | j' + 1 =>
          have hlt' : j' < (sendFrom env (k + 1)).attempts := by simp only at hlt; omega
          have hr' : isNonRetryable4xx (env ((k + 1) + j')) = true := by
            rw [show (k + 1) + j' = k + (j' + 1) by omega]
            exact hr
          obtain ⟨hres, hatt⟩ := ih5 j' hlt' hr'
          exact ⟨hres, by simp only; omega⟩
      · intro hdl
        simp only at hdl
        obtain ⟨hatt, hsl⟩ := ih6 hdl
        refine ⟨by simp only; omega, ?_⟩
        simp only
        rw [hsl, hdropk]
  | netError =>
    dsimp only
    refine ⟨by omega, by omega, ?_, ?_, ?_, ?_⟩
    · rw [ih3, hdropk]
      have ha : (sendFrom env (k + 1)).attempts + 1 - 1 = ((sendFrom env (k + 1)).attempts - 1) + 1 := by
        omega
      rw [ha, List.take_succ_cons]
    · intro j hj hlt hr
      match j with
      | 0 => omega
      | j' + 1 =>
        have hj' : (k + 1) + j' < 5 := by omega
        have hlt' : j' < (sendFrom env (k + 1)).attempts := by omega
        have hr' : claimRetryable (env ((k + 1) + j')) = true := by
          rw [show (k + 1) + j' = k + (j' + 1) by omega]
          exact hr
        have := ih4 j' hj' hlt' hr'
        omega
    · intro j hlt hr
      match j with
      | 0 =>
        rw [Nat.add_zero, henv] at hr
        simp [isNonRetryable4xx] at hr
      | j' + 1 =>
        have hlt' : j' < (sendFrom env (k + 1)).attempts := by omega
        have hr' : isNonRetryable4xx (env ((k + 1) + j')) = true := by
          rw [show (k + 1) + j' = k + (j' + 1) by omega]
          exact hr
        obtain ⟨hres, hatt⟩ := ih5 j' hlt' hr'
        exact ⟨hres, by omega⟩
    · intro hdl
      obtain ⟨hatt, hsl⟩ := ih6 hdl
      refine ⟨by omega, ?_⟩
      rw [hsl, hdropk]

theorem sendSpec_zero (env : Nat → FetchOutcome) : SendSpec env 0 :=
  sendSpec_step env 0 (by omega)
    (sendSpec_step env 1 (by omega)
      (sendSpec_step env 2 (by omega)
        (sendSpec_step env 3 (by omega)
          (sendSpec_step env 4 (by omega) (sendSpec_base env)))))

/-- C8: one settlement-webhook delivery makes at most 6 fetch attempts; the
sleeps between consecutive attempts are exactly the 1s, 2s, 4s, 8s, 16s
prefix matching the attempt count; an attempt answered by a 5xx, a 429, or a
network error is followed by another attempt while attempts remain; any
other 4xx stops the loop at once without a retry; and exhausting every
attempt ends only in the dead-letter outcome, after 6 attempts and all five
sleeps, with nothing further. -/
theorem webhook_retry_policy (env : Nat → FetchOutcome) :
    (sendWithRetry env).attempts ≤ 6 ∧
    (sendWithRetry env).sleeps = RETRY_DELAYS.take ((sendWithRetry env).attempts - 1) ∧
    (∀ i, i < 5 → i < (sendWithRetry env).attempts → claimRetryable (env i) = true →
      i + 1 < (sendWithRetry env).attempts) ∧
    (∀ i, i < (sendWithRetry env).attempts → isNonRetryable4xx (env i) = true →
      (sendWithRetry env).result = SendResult.clientError ∧
        (sendWithRetry env).attempts = i + 1) ∧
    ((sendWithRetry env).result = SendResult.deadLettered →
      (sendWithRetry env).attempts = 6 ∧ (sendWithRetry env).sleeps = RETRY_DELAYS) := by
  obtain ⟨h1, h2, h3, h4, h5, h6⟩ := sendSpec_zero env
  refine ⟨?_, ?_, ?_, ?_, ?_⟩
  · simpa using h2
  · simpa using h3
  · intro i hi hlt hr
    exact h4 i (by omega) hlt (by simpa using hr)
  · intro i hlt hr
    exact h5 i hlt (by simpa using hr)
  · intro hdl
    obtain ⟨ha, hs⟩ := h6 hdl
    exact ⟨by simpa using ha, by simpa using hs⟩

/-- The webhook environment used by the retry-policy witness: the first
fetch gets a 503, the second a 204. -/
def envW : Nat → FetchOutcome :=
  fun i => if i = 0 then FetchOutcome.response 503 else FetchOutcome.response 204

theorem webhook_retry_policy_witness :
    claimRetryable (envW 0) = true ∧ 0 < (sendWithRetry envW).attempts ∧
    0 + 1 < (sendWithRetry envW).attempts := by
  have heval : sendWithRetry envW =
      { result := SendResult.delivered, attempts := 2, sleeps := [1000] } := by
    rw [sendWithRetry, sendFrom, sendFrom]
    norm_num [envW, MAX_RETRIES, RETRY_DELAYS]
  refine ⟨by decide, by rw [heval]; norm_num, ?_⟩
  exact (webhook_retry_policy envW).2.2.1 0 (by norm_num) (by rw [heval]; norm_num) (by decide)

/-! ## Claim theorems: settlement-create idempotency (C1, C10) -/

/-- C1: a settlement-create request whose Idempotency-Key matches a stored
settlement returns the stored result verbatim and is side-effect free: the
response body is built from the stored row, its HTTP status derives from the
stored status (COMPLETED gives success 200, FAILED gives 422, anything else
gives accepted 202), the database keeps exactly the same settlements and
transfers, and no debit, credit, or escrow-release call is issued. -/
theorem settlement_create_idempotent (env : Env) (db : DB) (k : String) (s : Settlement)
    (body : Option SettlementBody) (ids : FreshIds)
    (hfound : findSettlementByKey db k = some s) :
    settlementCreate env db (some k) body ids =
      { http := settlementHttpStatus s.status
        body := some (cachedSettlementResponse s)
        db := db
        calls := [] } ∧
    (s.status = SettlementStatus.COMPLETED →
      (settlementCreate env db (some k) body ids).http = HttpStatus.ok200) ∧
    (s.status = SettlementStatus.FAILED →
      (settlementCreate env db (some k) body ids).http = HttpStatus.unprocessable422) ∧
    (s.status ≠ SettlementStatus.COMPLETED → s.status ≠ SettlementStatus.FAILED →
      (settlementCreate env db (some k) body ids).http = HttpStatus.accepted202) := by
  have hmain : settlementCreate env db (some k) body ids =
      { http := settlementHttpStatus s.status
        body := some (cachedSettlementResponse s)
        db := db
        calls := [] } := by
    simp [settlementCreate, hfound]
  refine ⟨hmain, ?_, ?_, ?_⟩
  · intro h
    rw [hmain]
    simp [settlementHttpStatus, h]
  · intro h
    rw [hmain]
    simp [settlementHttpStatus, h]
  · intro h1 h2
    rw [hmain]
    cases hs : s.status with
    | COMPLETED => exact absurd hs h1
    | FAILED => exact absurd hs h2
    | PENDING => simp [settlementHttpStatus]
    | PROCESSING => simp [settlementHttpStatus]

/-- An environment in which every lookup fails and every bank call is
rejected; used to instantiate witnesses. -/
def trivialEnv : Env :=
  { findAlias := fun _ _ => none
    findMerchant := fun _ _ => none
    hasBsimConnection := fun _ => false
    debitResult := fun _ _ => { success := false, transactionId := none, error := none, message := none }
    creditResult := fun _ _ => { success := false, transactionId := none, error := none, message := none }
    escrowReleaseResult := fun _ _ =>
      { success := false, transactionId := none, error := none, message := none } }

/-- A stored, completed settlement used by the idempotency witnesses. -/
def storedSettlementW : Settlement :=
  { id := "cuid1"
    settlementId := "stl_1"
    idempotencyKey := "key1"
    contractId := "contract1"
    settlementType := "winner_payout"
    fromWalletId := "WLLT-u1"
    fromBsimId := "bank1"
    fromEscrowId := none
    toWalletId := "WLLT-u2"
    toBsimId := "bank1"
    amount := 10
    currency := "CAD"
    metadataContractTitle := none
    status := SettlementStatus.COMPLETED
    statusMessage := none
    errorCode := none
    transferId := some "p2p_1"
    completedAt := true }

/-- A database already holding the stored settlement. -/
def dbW : DB := { settlements := [storedSettlementW], transfers := [] }

/-- Fresh identifiers for the witness requests. -/
def idsW : FreshIds :=
  { settlementDbId := "cuid2"
    settlementId := "stl_2"
    transferId := "p2p_2"
    transferDbId := "cuid3" }

theorem settlement_create_idempotent_witness :
    findSettlementByKey dbW "key1" = some storedSettlementW ∧
    (settlementCreate trivialEnv dbW (some "key1") none idsW).http = HttpStatus.ok200 :=
  ⟨rfl,
    (settlement_create_idempotent trivialEnv dbW "key1" storedSettlementW none idsW rfl).2.1 rfl⟩

/-- C10: the idempotency-key lookup happens before body validation: when the
key matches a stored settlement, the cached result is returned even for a
request body that fails validation, and the outcome is the same whatever
body (valid, invalid, or different) accompanies the request. -/
theorem settlement_lookup_before_validation (env : Env) (db : DB) (k : String) (s : Settlement)
    (b1 b2 : Option SettlementBody) (ids1 ids2 : FreshIds)
    (hfound : findSettlementByKey db k = some s) :
    settlementCreate env db (some k) none ids1 =
      { http := settlementHttpStatus s.status
        body := some (cachedSettlementResponse s)
        db := db
        calls := [] } ∧
    settlementCreate env db (some k) b1 ids1 = settlementCreate env db (some k) b2 ids2 := by
  constructor
  · simp [settlementCreate, hfound]
  · simp [settlementCreate, hfound]

theorem settlement_lookup_before_validation_witness :
    findSettlementByKey dbW "key1" = some storedSettlementW ∧
    settlementCreate trivialEnv dbW (some "key1") none idsW =
      { http := settlementHttpStatus storedSettlementW.status
        body := some (cachedSettlementResponse storedSettlementW)
        db := dbW
        calls := [] } :=
  ⟨rfl,
    (settlement_lookup_before_validation trivialEnv dbW "key1" storedSettlementW
      none none idsW idsW rfl).1⟩

/-! ## Claim theorems: transfer status monotonicity (C2) -/

/-- The designed forward chain of transfer statuses. -/
def mainChain : List TransferStatus :=
  [.PENDING, .RESOLVING, .DEBITING, .CREDITING, .COMPLETED]

/-- The early-termination failure/cancel statuses. -/
def isFailureStatus (s : TransferStatus) : Bool :=
  s = TransferStatus.RECIPIENT_NOT_FOUND || s = TransferStatus.DEBIT_FAILED ||
  s = TransferStatus.CREDIT_FAILED || s = TransferStatus.CANCELLED

/-- Position of a status in the forward chain; failure and reserved statuses
rank above every chain position. -/
def statusRank : TransferStatus → Nat
  | .PENDING => 0
  | .RESOLVING => 1
  | .DEBITING => 2
  | .CREDITING => 3
  | .COMPLETED => 4
  | _ => 5

/-- A status sequence the monotonicity claim allows: a subsequence of the
forward chain, or such a subsequence terminated by one failure/cancel
status. -/
def GoodSeq (seq : List TransferStatus) : Prop :=
  seq.Sublist mainChain ∨
  ∃ pre f, seq = pre ++ [f] ∧ pre.Sublist mainChain ∧ isFailureStatus f = true

set_option maxHeartbeats 1000000 in
/-- The only status-write sequences processTransfer can produce on a PENDING
transfer. -/
theorem processTransfer_writes (env : Env) (t : Transfer)
    (h : t.status = TransferStatus.PENDING) :
    (processTransfer env t).writes = [.RESOLVING, .RECIPIENT_NOT_FOUND] ∨
    (processTransfer env t).writes = [.RESOLVING, .DEBIT_FAILED] ∨
    (processTransfer env t).writes = [.RESOLVING, .DEBITING, .DEBIT_FAILED] ∨
    (processTransfer env t).writes = [.RESOLVING, .DEBITING, .CREDIT_FAILED] ∨
    (processTransfer env t).writes = [.RESOLVING, .DEBITING, .CREDITING, .CREDIT_FAILED] ∨
    (processTransfer env t).writes = [.RESOLVING, .DEBITING, .CREDITING, .COMPLETED] := by
  simp only [processTransfer]
  rw [if_neg (by simp [h])]
  rcases henv : env.findAlias t.recipientAliasType t.recipientAlias with _ | a
  · simp
  · simp only [executeSameBankTransfer, executeCrossBankTransfer]
    split_ifs <;> (dsimp only) <;> tauto

/-- C2: on a PENDING transfer the saga writes a status sequence that is a
subsequence of PENDING, RESOLVING, DEBITING, CREDITING, COMPLETED or such a
prefix terminated by one failure status, with strictly increasing rank
(never regressing); on any non-PENDING (in particular terminal) transfer it
does nothing at all; and the user-cancel route moves only PENDING,
RESOLVING, or RECIPIENT_NOT_FOUND transfers, always to CANCELLED. -/
theorem transfer_status_monotonic (env : Env) (t : Transfer) :
    (t.status ≠ TransferStatus.PENDING →
      processTransfer env t = { final := t, writes := [], calls := [] }) ∧
    (t.status = TransferStatus.PENDING →
      GoodSeq (t.status :: (processTransfer env t).writes) ∧
      List.Pairwise (fun a b => statusRank a < statusRank b)
        (t.status :: (processTransfer env t).writes)) ∧
    (∀ t2, cancelTransfer t = some t2 →
      t.status ∈ cancellableStatuses ∧ t2.status = TransferStatus.CANCELLED) := by
  refine ⟨?_, ?_, ?_⟩
  · intro h
    simp [processTransfer, h]
  · intro h
    rcases processTransfer_writes env t h with hw | hw | hw | hw | hw | hw <;>
      rw [h, hw] <;>
      constructor
    · exact Or.inr ⟨[.PENDING, .RESOLVING], .RECIPIENT_NOT_FOUND, rfl, by decide, by decide⟩
    · decide
    · exact Or.inr ⟨[.PENDING, .RESOLVING], .DEBIT_FAILED, rfl, by decide, by decide⟩
    · decide
    · exact Or.inr ⟨[.PENDING, .RESOLVING, .DEBITING], .DEBIT_FAILED, rfl, by decide, by decide⟩
    · decide
    · exact Or.inr ⟨[.PENDING, .RESOLVING, .DEBITING], .CREDIT_FAILED, rfl, by decide, by decide⟩
    · decide
    · exact Or.inr ⟨[.PENDING, .RESOLVING, .DEBITING, .CREDITING], .CREDIT_FAILED, rfl,
        by decide, by decide⟩
    · decide
    · exact Or.inl (by decide)
    · decide
  · intro t2 h2
    unfold cancelTransfer at h2
    split_ifs at h2 with hc
    cases h2
    exact ⟨hc, rfl⟩

/-- An environment where the alias resolves to a different same-bank user,
no merchant is registered, and both bank calls succeed with transaction
ids. -/
def envHappy : Env :=
  { findAlias := fun _ _ => some { userId := "u2", bsimId := "bank1", accountId := some "acct2" }
    findMerchant := fun _ _ => none
    hasBsimConnection := fun _ => true
    debitResult := fun _ _ =>
      { success := true, transactionId := some "txn-d1", error := none, message := none }
    creditResult := fun _ _ =>
      { success := true, transactionId := some "txn-c1", error := none, message := none }
    escrowReleaseResult := fun _ _ =>
      { success := true, transactionId := some "txn-e1", error := none, message := none } }

/-- A freshly created PENDING transfer of 25 CAD from u1 at bank1. -/
def transferW : Transfer :=
  { id := "cuidT"
    transferId := "p2p_t1"
    senderUserId := "u1"
    senderBsimId := "bank1"
    senderAccountId := "acct1"
    recipientAlias := "@bob"
    recipientAliasType := AliasType.USERNAME
    amount := 25
    currency := "CAD"
    description := none
    status := TransferStatus.PENDING
    statusMessage := none
    recipientUserId := none
    recipientBsimId := none
    recipientAccountId := none
    recipientType := RecipientType.INDIVIDUAL
    microMerchantId := none
    feeAmount := none
    debitTransactionId := none
    creditTransactionId := none
    completedAt := false }

theorem transfer_status_monotonic_witness :
    GoodSeq (transferW.status :: (processTransfer envHappy transferW).writes) ∧
    List.Pairwise (fun a b => statusRank a < statusRank b)
      (transferW.status :: (processTransfer envHappy transferW).writes) :=
  (transfer_status_monotonic envHappy transferW).2.1 rfl

/-! ## Claim theorems: self-transfer guard (C5) -/

/-- C5: when resolution finds a verified alias carrying the sender's own
(userId, bankId), the saga ends the transfer in DEBIT_FAILED with the
cannot-transfer-to-self message — whatever the amount or bank topology —
after writing only RESOLVING then DEBIT_FAILED, and it issues no debit,
credit, or escrow-release call. -/
theorem self_transfer_rejection (env : Env) (t : Transfer) (a : AliasRec)
    (hp : t.status = TransferStatus.PENDING)
    (ha : env.findAlias t.recipientAliasType t.recipientAlias = some a)
    (hu : a.userId = t.senderUserId) (hb : a.bsimId = t.senderBsimId) :
    processTransfer env t =
      { final :=
          { t with
            status := TransferStatus.DEBIT_FAILED
            statusMessage := some "Cannot transfer to yourself" }
        writes := [.RESOLVING, .DEBIT_FAILED]
        calls := [] } := by
  simp only [processTransfer]
  rw [if_neg (by simp [hp]), ha]
  simp [hu, hb]

/-- An environment resolving every alias back to the sending user at the
sending bank. -/
def envSelf : Env :=
  { envHappy with
    findAlias := fun _ _ => some { userId := "u1", bsimId := "bank1", accountId := some "acct1" } }

theorem self_transfer_rejection_witness :
    (processTransfer envSelf transferW).final.status = TransferStatus.DEBIT_FAILED ∧
    (processTransfer envSelf transferW).final.statusMessage =
      some "Cannot transfer to yourself" ∧
    (processTransfer envSelf transferW).calls = [] := by
  have h := self_transfer_rejection envSelf transferW
    { userId := "u1", bsimId := "bank1", accountId := some "acct1" } rfl rfl rfl rfl
  rw [h]
  exact ⟨rfl, rfl, rfl⟩

/-! ## Claim theorems: cross-bank recipient connection missing (C9) -/

/-- C9: in a cross-bank transfer whose recipient bank has no configured
connection (the sender bank being configured), the saga ends the transfer in
CREDIT_FAILED with the recipient-connection message before issuing any bank
call, leaving debitTransactionId null — so CREDIT_FAILED does not imply a
performed debit. -/
theorem crossbank_recipient_unconfigured (env : Env) (t : Transfer) (a : AliasRec)
    (hp : t.status = TransferStatus.PENDING)
    (ha : env.findAlias t.recipientAliasType t.recipientAlias = some a)
    (hnself : ¬(a.userId = t.senderUserId ∧ a.bsimId = t.senderBsimId))
    (hcross : t.senderBsimId ≠ a.bsimId)
    (hsender : env.hasBsimConnection t.senderBsimId = true)
    (hrecip : env.hasBsimConnection a.bsimId = false)
    (hdeb : t.debitTransactionId = none) :
    (processTransfer env t).final.status = TransferStatus.CREDIT_FAILED ∧
    (processTransfer env t).final.statusMessage =
      some "Recipient BSIM connection not configured" ∧
    (processTransfer env t).calls = [] ∧
    (processTransfer env t).final.debitTransactionId = none := by
  simp only [processTransfer, ha]
  rw [if_neg (by simp [hp])]
  rw [if_neg hnself, if_neg hcross]
  simp only [executeCrossBankTransfer]
  rw [if_neg (by simp [hsender]), if_pos hrecip]
  exact ⟨rfl, rfl, rfl, hdeb⟩

/-- An environment resolving aliases to a user at bank2, with only bank1
configured. -/
def envCross : Env :=
  { envHappy with
    findAlias := fun _ _ => some { userId := "u2", bsimId := "bank2", accountId := none }
    hasBsimConnection := fun b => b == "bank1" }

theorem crossbank_recipient_unconfigured_witness :
    (processTransfer envCross transferW).final.status = TransferStatus.CREDIT_FAILED ∧
    (processTransfer envCross transferW).final.statusMessage =
      some "Recipient BSIM connection not configured" ∧
    (processTransfer envCross transferW).calls = [] ∧
    (processTransfer envCross transferW).final.debitTransactionId = none :=
  crossbank_recipient_unconfigured envCross transferW
    { userId := "u2", bsimId := "bank2", accountId := none }
    rfl rfl (by decide) (by decide) rfl rfl rfl

/-! ## Claim theorems: merchant fee policy (C6) -/

theorem execSame_feeAmount (env : Env) (t : Transfer) (a : AliasRec) :
    (executeSameBankTransfer env t a).final.feeAmount = t.feeAmount := by
  simp only [executeSameBankTransfer]
  split_ifs <;> rfl

theorem execCross_feeAmount (env : Env) (t : Transfer) (a : AliasRec) :
    (executeCrossBankTransfer env t a).final.feeAmount = t.feeAmount := by
  simp only [executeCrossBankTransfer]
  split_ifs <;> rfl

theorem execSame_credit_amount (env : Env) (t : Transfer) (a : AliasRec) (b : String)
    (r : CreditReq) (hr : BankCall.credit b r ∈ (executeSameBankTransfer env t a).calls) :
    r.amount = t.amount := by
  simp only [executeSameBankTransfer] at hr
  split_ifs at hr <;> simp_all

theorem execCross_credit_amount (env : Env) (t : Transfer) (a : AliasRec) (b : String)
    (r : CreditReq) (hr : BankCall.credit b r ∈ (executeCrossBankTransfer env t a).calls) :
    r.amount = t.amount := by
  simp only [executeCrossBankTransfer] at hr
  split_ifs at hr <;> simp_all


set_option maxHeartbeats 1000000 in
/-- C6: for a resolved, non-self recipient: when the recipient is an active
registered merchant the stored fee is 0.25 for amounts below 200 and 0.50
otherwise; an inactive or unregistered merchant leaves the fee null; and
every credit call carries the full transfer amount (the fee is never
deducted from the credited amount). -/
theorem merchant_fee_policy (env : Env) (t : Transfer) (a : AliasRec)
    (hp : t.status = TransferStatus.PENDING)
    (ha : env.findAlias t.recipientAliasType t.recipientAlias = some a)
    (hnself : ¬(a.userId = t.senderUserId ∧ a.bsimId = t.senderBsimId)) :
    (∀ m, env.findMerchant a.userId a.bsimId = some m → m.isActive = true →
      (processTransfer env t).final.feeAmount =
        some (if t.amount < 200 then (1 : ℚ)/4 else 1/2)) ∧
    (∀ m, env.findMerchant a.userId a.bsimId = some m → m.isActive = false →
      (processTransfer env t).final.feeAmount = none) ∧
    (env.findMerchant a.userId a.bsimId = none →
      (processTransfer env t).final.feeAmount = none) ∧
    (∀ b r, BankCall.credit b r ∈ (processTransfer env t).calls → r.amount = t.amount) := by
  refine ⟨?_, ?_, ?_, ?_⟩
  · intro m hm hact
    simp only [processTransfer, ha, hm]
    rw [if_neg (by simp [hp]), if_neg hnself]
    by_cases hsb : t.senderBsimId = a.bsimId
    · rw [if_pos hsb]
      simp [execSame_feeAmount, hact, calculateFee]
    · rw [if_neg hsb]
      simp [execCross_feeAmount, hact, calculateFee]
  · intro m hm hact
    simp only [processTransfer, ha, hm]
    rw [if_neg (by simp [hp]), if_neg hnself]
    by_cases hsb : t.senderBsimId = a.bsimId
    · rw [if_pos hsb]
      simp [execSame_feeAmount, hact]
    · rw [if_neg hsb]
      simp [execCross_feeAmount, hact]
  · intro hm
    simp only [processTransfer, ha, hm]
    rw [if_neg (by simp [hp]), if_neg hnself]
    by_cases hsb : t.senderBsimId = a.bsimId
    · rw [if_pos hsb]
      simp [execSame_feeAmount]
    · rw [if_neg hsb]
      simp [execCross_feeAmount]
  · intro b r hr
    simp only [processTransfer, ha] at hr
    rw [if_neg (by simp [hp]), if_neg hnself] at hr
    by_cases hsb : t.senderBsimId = a.bsimId
    · rw [if_pos hsb] at hr
      simp only [] at hr
      have h2 := execSame_credit_amount _ _ _ _ _ hr
      simpa using h2
    · rw [if_neg hsb] at hr
      simp only [] at hr
      have h2 := execCross_credit_amount _ _ _ _ _ hr
      simpa using h2


/-- envHappy with an active registered merchant at the recipient. -/
def envMerchant : Env :=
  { envHappy with findMerchant := fun _ _ => some { merchantId := "mm1", isActive := true } }

theorem merchant_fee_policy_witness :
    (processTransfer envMerchant transferW).final.feeAmount =
      some (if transferW.amount < 200 then (1 : ℚ)/4 else 1/2) :=
  (merchant_fee_policy envMerchant transferW
    { userId := "u2", bsimId := "bank1", accountId := some "acct2" } rfl rfl (by decide)).1
    { merchantId := "mm1", isActive := true } rfl rfl

/-! ## Claim theorems: debit-before-credit invariant (C3) -/

/-- envHappy except the bank omits the transaction id on successful debits. -/
def envNoDebitTxn : Env :=
  { envHappy with
    debitResult := fun _ _ =>
      { success := true, transactionId := none, error := none, message := none } }

theorem debit_credit_invariant_counterexample :
    (processTransfer envNoDebitTxn transferW).final.status = TransferStatus.COMPLETED ∧
    (processTransfer envNoDebitTxn transferW).final.creditTransactionId = some "txn-c1" ∧
    (processTransfer envNoDebitTxn transferW).final.debitTransactionId = none :=
  ⟨rfl, rfl, rfl⟩

/-- Bank environments whose successful money-movement responses always carry
a transaction id. -/
def goodEnv (env : Env) : Prop :=
  (∀ b r, (env.debitResult b r).success = true → (env.debitResult b r).transactionId ≠ none) ∧
  (∀ b r, (env.creditResult b r).success = true → (env.creditResult b r).transactionId ≠ none) ∧
  (∀ b r, (env.escrowReleaseResult b r).success = true →
    (env.escrowReleaseResult b r).transactionId ≠ none)

/-- The claimed row invariant: credit id only with debit id, and COMPLETED
rows fully populated. -/
def TransferInv (tr : Transfer) : Prop :=
  (tr.creditTransactionId ≠ none → tr.debitTransactionId ≠ none) ∧
  (tr.status = TransferStatus.COMPLETED →
    tr.debitTransactionId ≠ none ∧ tr.creditTransactionId ≠ none ∧ tr.completedAt = true)

theorem or_ne_none {α : Type} {o x : Option α} (h : o ≠ none) : o.or x ≠ none := by
  cases o with
  | none => exact absurd rfl h
  | some v => simp [Option.or]

theorem execSame_inv (env : Env)
    (hdeb : ∀ b r, (env.debitResult b r).success = true →
      (env.debitResult b r).transactionId ≠ none)
    (hcred : ∀ b r, (env.creditResult b r).success = true →
      (env.creditResult b r).transactionId ≠ none)
    (t : Transfer) (a : AliasRec) (h0 : t.creditTransactionId = none) :
    TransferInv (executeSameBankTransfer env t a).final := by
  unfold TransferInv
  simp only [executeSameBankTransfer]
  split_ifs with hcon hdr hcr
  · exact ⟨fun hcne => absurd h0 hcne, fun h => absurd h (by decide)⟩
  · exact ⟨fun hcne => absurd h0 hcne, fun h => absurd h (by decide)⟩
  · exact ⟨fun hcne => absurd h0 hcne, fun h => absurd h (by decide)⟩
  · simp only [Bool.not_eq_false] at hdr hcr
    refine ⟨fun _ => or_ne_none (hdeb _ _ hdr), fun _ => ?_⟩
    exact ⟨or_ne_none (hdeb _ _ hdr), or_ne_none (hcred _ _ hcr), rfl⟩

theorem execCross_inv (env : Env)
    (hdeb : ∀ b r, (env.debitResult b r).success = true →
      (env.debitResult b r).transactionId ≠ none)
    (hcred : ∀ b r, (env.creditResult b r).success = true →
      (env.creditResult b r).transactionId ≠ none)
    (t : Transfer) (a : AliasRec) (h0 : t.creditTransactionId = none) :
    TransferInv (executeCrossBankTransfer env t a).final := by
  unfold TransferInv
  simp only [executeCrossBankTransfer]
  split_ifs with hcon1 hcon2 hdr hcr
  · exact ⟨fun hcne => absurd h0 hcne, fun h => absurd h (by decide)⟩
  · exact ⟨fun hcne => absurd h0 hcne, fun h => absurd h (by decide)⟩
  · exact ⟨fun hcne => absurd h0 hcne, fun h => absurd h (by decide)⟩
  · exact ⟨fun hcne => absurd h0 hcne, fun h => absurd h (by decide)⟩
  · simp only [Bool.not_eq_false] at hdr hcr
    refine ⟨fun _ => or_ne_none (hdeb _ _ hdr), fun _ => ?_⟩
    exact ⟨or_ne_none (hdeb _ _ hdr), or_ne_none (hcred _ _ hcr), rfl⟩



theorem settleEscrowPath_inv (env : Env)
    (hcred : ∀ b r, (env.creditResult b r).success = true →
      (env.creditResult b r).transactionId ≠ none)
    (hescr : ∀ b r, (env.escrowReleaseResult b r).success = true →
      (env.escrowReleaseResult b r).transactionId ≠ none)
    (s1 : Settlement) (tr0 : Transfer) (ereq : EscrowReq) (creq : CreditReq) (tid : String)
    (h0 : tr0.creditTransactionId = none) :
    ∀ tr, (settleEscrowPath env s1 tr0 ereq creq tid).transfer = some tr → TransferInv tr := by
  intro tr htr
  unfold TransferInv
  simp only [settleEscrowPath, settleComplete] at htr
  split_ifs at htr with her hcr
  · cases htr
    exact ⟨fun hcne => absurd h0 hcne, fun h => by simp at h⟩
  · cases htr
    exact ⟨fun hcne => absurd h0 hcne, fun h => by simp at h⟩
  · simp only [Bool.not_eq_false] at her hcr
    cases htr
    refine ⟨fun _ => or_ne_none (hescr _ _ her), fun _ => ?_⟩
    exact ⟨or_ne_none (hescr _ _ her), or_ne_none (hcred _ _ hcr), rfl⟩

theorem settleDebitPath_inv (env : Env)
    (hdeb : ∀ b r, (env.debitResult b r).success = true →
      (env.debitResult b r).transactionId ≠ none)
    (hcred : ∀ b r, (env.creditResult b r).success = true →
      (env.creditResult b r).transactionId ≠ none)
    (s1 : Settlement) (tr0 : Transfer) (dreq : DebitReq) (creq : CreditReq) (tid : String)
    (h0 : tr0.creditTransactionId = none) :
    ∀ tr, (settleDebitPath env s1 tr0 dreq creq tid).transfer = some tr → TransferInv tr := by
  intro tr htr
  unfold TransferInv
  simp only [settleDebitPath, settleComplete] at htr
  split_ifs at htr with hdr hcr
  · cases htr
    exact ⟨fun hcne => absurd h0 hcne, fun h => by simp at h⟩
  · cases htr
    exact ⟨fun hcne => absurd h0 hcne, fun h => by simp at h⟩
  · simp only [Bool.not_eq_false] at hdr hcr
    cases htr
    refine ⟨fun _ => or_ne_none (hdeb _ _ hdr), fun _ => ?_⟩
    exact ⟨or_ne_none (hdeb _ _ hdr), or_ne_none (hcred _ _ hcr), rfl⟩

theorem settlement_transfer_inv (env : Env)
    (hdeb : ∀ b r, (env.debitResult b r).success = true →
      (env.debitResult b r).transactionId ≠ none)
    (hcred : ∀ b r, (env.creditResult b r).success = true →
      (env.creditResult b r).transactionId ≠ none)
    (hescr : ∀ b r, (env.escrowReleaseResult b r).success = true →
      (env.escrowReleaseResult b r).transactionId ≠ none)
    (s : Settlement) (tid iid : String) :
    ∀ tr, (processSettlement env s tid iid).transfer = some tr → TransferInv tr := by
  intro tr htr
  simp only [processSettlement] at htr
  split_ifs at htr
  all_goals rcases hE : s.fromEscrowId with _ | eid <;> rw [hE] at htr <;> dsimp only at htr
  all_goals first
    | exact settleDebitPath_inv env hdeb hcred _ _ _ _ _ rfl tr htr
    | exact settleEscrowPath_inv env hcred hescr _ _ _ _ _ rfl tr htr



set_option maxHeartbeats 1000000 in
/-- C3 (amended): provided every successful debit, credit, and
escrow-release response carries a transaction id, the final row of a
transfer processed from a fresh PENDING state, and every transfer row the
settlement saga creates, satisfy the invariant: creditTransactionId is set
only if debitTransactionId is set, and a COMPLETED row has both transaction
ids and a non-null completedAt. -/
theorem debit_credit_invariant (env : Env) (hgood : goodEnv env) :
    (∀ t : Transfer, t.status = TransferStatus.PENDING → t.creditTransactionId = none →
      TransferInv (processTransfer env t).final) ∧
    (∀ (s : Settlement) (tid iid : String) (tr : Transfer),
      (processSettlement env s tid iid).transfer = some tr → TransferInv tr) := by
  obtain ⟨hdeb, hcred, hescr⟩ := hgood
  constructor
  · intro t hp h0
    rcases ha : env.findAlias t.recipientAliasType t.recipientAlias with _ | a
    · unfold TransferInv
      simp only [processTransfer, ha]
      rw [if_neg (by simp [hp])]
      exact ⟨fun hcne => absurd h0 hcne, fun h => by simp at h⟩
    · by_cases hself : a.userId = t.senderUserId ∧ a.bsimId = t.senderBsimId
      · unfold TransferInv
        simp only [processTransfer, ha]
        rw [if_neg (by simp [hp]), if_pos hself]
        exact ⟨fun hcne => absurd h0 hcne, fun h => by simp at h⟩
      · by_cases hsb : t.senderBsimId = a.bsimId
        · simp only [processTransfer, ha]
          rw [if_neg (by simp [hp]), if_neg hself, if_pos hsb]
          exact execSame_inv env hdeb hcred _ a h0
        · simp only [processTransfer, ha]
          rw [if_neg (by simp [hp]), if_neg hself, if_neg hsb]
          exact execCross_inv env hdeb hcred _ a h0
  · intro s tid iid tr htr
    exact settlement_transfer_inv env hdeb hcred hescr s tid iid tr htr

theorem debit_credit_invariant_witness :
    goodEnv envHappy ∧
    TransferInv (processTransfer envHappy transferW).final := by
  have hg : goodEnv envHappy := by
    refine ⟨?_, ?_, ?_⟩ <;> intro b r h <;> simp [envHappy]
  exact ⟨hg, (debit_credit_invariant envHappy hg).1 transferW rfl rfl⟩


/-! ## Claim theorems: escrow-path credit failure (C4) -/

/-- A pending settlement funded from escrow, used for the escrow-path
claims. -/
def escrowSettlementW : Settlement :=
  { storedSettlementW with
    id := "cuidS"
    settlementId := "stl_e1"
    idempotencyKey := "keyE"
    fromEscrowId := some "esc1"
    status := SettlementStatus.PENDING
    transferId := none
    completedAt := false }

/-- envHappy except every credit fails with a bank-reported error string. -/
def envEscrowCreditFail : Env :=
  { envHappy with
    creditResult := fun _ _ =>
      { success := false, transactionId := none, error := some "Insufficient funds",
        message := none } }

theorem escrow_credit_failure_counterexample :
    escrowSettlementW.fromEscrowId = some "esc1" ∧
    (processSettlement envEscrowCreditFail escrowSettlementW "p2p_e" "cuidTe").settlement.status
      = SettlementStatus.FAILED ∧
    (processSettlement envEscrowCreditFail escrowSettlementW "p2p_e" "cuidTe").settlement.errorCode
      = some "CREDIT_FAILED" ∧
    (processSettlement envEscrowCreditFail escrowSettlementW "p2p_e"
      "cuidTe").settlement.statusMessage = some "Insufficient funds" ∧
    (processSettlement envEscrowCreditFail escrowSettlementW "p2p_e"
      "cuidTe").settlement.statusMessage ≠
      some "Credit failed (escrow released, needs compensation)" := by
  refine ⟨rfl, rfl, rfl, rfl, ?_⟩
  have h4 : (processSettlement envEscrowCreditFail escrowSettlementW "p2p_e"
      "cuidTe").settlement.statusMessage = some "Insufficient funds" := rfl
  rw [h4]
  simp



/-- The linked transfer row processSettlement creates before moving money. -/
def settlementTransferRow (s : Settlement) (tid iid : String) : Transfer :=
  { id := iid
    transferId := tid
    senderUserId := extractUserIdFromWalletId s.fromWalletId
    senderBsimId := s.fromBsimId
    senderAccountId := "default"
    recipientAlias := extractUserIdFromWalletId s.toWalletId
    recipientAliasType := AliasType.USERNAME
    amount := s.amount
    currency := s.currency
    description := some (settlementDescription s)
    status := TransferStatus.DEBITING
    statusMessage := none
    recipientUserId := some (extractUserIdFromWalletId s.toWalletId)
    recipientBsimId := some s.toBsimId
    recipientAccountId := none
    recipientType := RecipientType.INDIVIDUAL
    microMerchantId := none
    feeAmount := none
    debitTransactionId := none
    creditTransactionId := none
    completedAt := false }

/-- The escrow-release request processSettlement builds. -/
def settlementEscrowReq (s : Settlement) (eid iid : String) : EscrowReq :=
  { escrowId := eid
    contractId := s.contractId
    transferId := iid
    reason := settlementDescription s }

/-- The credit request processSettlement builds. -/
def settlementCreditReq (s : Settlement) (iid : String) : CreditReq :=
  { userId := extractUserIdFromWalletId s.toWalletId
    accountId := none
    amount := s.amount
    currency := s.currency
    transferId := iid
    description := settlementDescription s ++ " - Credit" }

/-- Unfolding of processSettlement on the escrow path, once both bank
connections are configured. -/
theorem processSettlement_escrow (env : Env) (s : Settlement) (tid iid eid : String)
    (hesc : s.fromEscrowId = some eid)
    (hfrom : env.hasBsimConnection s.fromBsimId = true)
    (hto : env.hasBsimConnection s.toBsimId = true) :
    processSettlement env s tid iid =
      settleEscrowPath env { s with status := SettlementStatus.PROCESSING }
        (settlementTransferRow s tid iid) (settlementEscrowReq s eid iid)
        (settlementCreditReq s iid) tid := by
  unfold processSettlement
  rw [hesc]
  dsimp only
  rw [if_neg (by simp [hfrom])]
  rw [if_neg (by by_cases hsame : s.fromBsimId = s.toBsimId <;> simp [hsame, hfrom, hto])]
  rfl

/-- Unfolding of the escrow path when the release succeeds and the credit
fails. -/
theorem settleEscrowPath_creditFail (env : Env) (s1 : Settlement) (tr0 : Transfer)
    (ereq : EscrowReq) (creq : CreditReq) (tid : String)
    (hrel : (env.escrowReleaseResult s1.fromBsimId ereq).success = true)
    (hcf : (env.creditResult s1.toBsimId creq).success = false) :
    settleEscrowPath env s1 tr0 ereq creq tid =
      { settlement :=
          (markSettlementFailed s1 "CREDIT_FAILED"
            ((env.creditResult s1.toBsimId creq).error.getD
              "Credit failed (escrow released, needs compensation)") (some tid)).1
        transfer := some
          { tr0 with
            debitTransactionId :=
              (env.escrowReleaseResult s1.fromBsimId ereq).transactionId.or
                tr0.debitTransactionId
            status := TransferStatus.CREDIT_FAILED
            statusMessage :=
              some ((env.creditResult s1.toBsimId creq).error.getD "Credit failed") }
        calls := [.escrowRelease s1.fromBsimId ereq, .credit s1.toBsimId creq]
        result :=
          (markSettlementFailed s1 "CREDIT_FAILED"
            ((env.creditResult s1.toBsimId creq).error.getD
              "Credit failed (escrow released, needs compensation)") (some tid)).2 } := by
  simp only [settleEscrowPath]
  rw [if_neg (by simp [hrel]), if_pos hcf]

set_option maxHeartbeats 1000000 in
/-- C4 (amended): for a settlement with an escrow id whose escrow release
succeeds and whose credit then fails, the settlement ends FAILED with error
code CREDIT_FAILED and a status message equal to the credit error when the
bank reports one, falling back to the note that the escrow was already
released when it does not; the linked transfer ends CREDIT_FAILED; and the
only bank calls made are the escrow release and the failed credit — no
compensating operation is attempted. -/
theorem escrow_credit_failure (env : Env) (s : Settlement) (eid : String)
    (tid iid : String) (errOpt : Option String)
    (hesc : s.fromEscrowId = some eid)
    (hfrom : env.hasBsimConnection s.fromBsimId = true)
    (hto : env.hasBsimConnection s.toBsimId = true)
    (hrel : ∀ r, (env.escrowReleaseResult s.fromBsimId r).success = true)
    (hcf : ∀ r, (env.creditResult s.toBsimId r).success = false)
    (herr : ∀ r, (env.creditResult s.toBsimId r).error = errOpt) :
    (processSettlement env s tid iid).settlement.status = SettlementStatus.FAILED ∧
    (processSettlement env s tid iid).settlement.errorCode = some "CREDIT_FAILED" ∧
    (processSettlement env s tid iid).settlement.statusMessage =
      some (errOpt.getD "Credit failed (escrow released, needs compensation)") ∧
    (∀ tr, (processSettlement env s tid iid).transfer = some tr →
      tr.status = TransferStatus.CREDIT_FAILED ∧
      tr.statusMessage = some (errOpt.getD "Credit failed")) ∧
    (processSettlement env s tid iid).calls =
      [BankCall.escrowRelease s.fromBsimId (settlementEscrowReq s eid iid),
       BankCall.credit s.toBsimId (settlementCreditReq s iid)] := by
  rw [processSettlement_escrow env s tid iid eid hesc hfrom hto]
  rw [settleEscrowPath_creditFail env { s with status := SettlementStatus.PROCESSING }
    (settlementTransferRow s tid iid) (settlementEscrowReq s eid iid)
    (settlementCreditReq s iid) tid (hrel _) (hcf _)]
  refine ⟨?_, ?_, ?_, ?_, ?_⟩
  · simp [markSettlementFailed]
  · simp [markSettlementFailed]
  · simp [markSettlementFailed, herr]
  · intro tr htr
    cases htr
    exact ⟨rfl, by simp [herr]⟩
  · rfl


theorem escrow_credit_failure_witness :
    (processSettlement envEscrowCreditFail escrowSettlementW "p2p_e" "cuidTe").settlement.status
      = SettlementStatus.FAILED ∧
    (processSettlement envEscrowCreditFail escrowSettlementW "p2p_e"
      "cuidTe").settlement.errorCode = some "CREDIT_FAILED" ∧
    (processSettlement envEscrowCreditFail escrowSettlementW "p2p_e"
      "cuidTe").settlement.statusMessage =
      some ((some "Insufficient funds").getD
        "Credit failed (escrow released, needs compensation)") := by
  have h := escrow_credit_failure envEscrowCreditFail escrowSettlementW "esc1" "p2p_e" "cuidTe"
    (some "Insufficient funds") rfl rfl rfl (fun _ => rfl) (fun _ => rfl) (fun _ => rfl)
  exact ⟨h.1, h.2.1, h.2.2.1⟩

end TransferSim
